import Mathlib

/-!
Verification development for the KemoFox-Tunnel server (`src/server.js`).

The file `src/server.js` contains two revisions of the server concatenated;
the second (the sqlite-backed one, lines 162-464) supersedes the first and is
the program embedded here.  The embedding below is a shallow one: the
observable server state is the in-memory `tunnels` object, the persisted
`tunnels` table and the issued API keys; each HTTP handler becomes a function
on that state, with the nondeterministic inputs of a request (the generated
uuid, whether a database call succeeds, whether `listen` binds) made explicit
parameters.  The byte relay set up by `socket.pipe(client)` and
`client.pipe(socket)` is embedded as an ordered chunk-forwarding machine.
-/

namespace KemoFox

/-- The fields of `config.json` that the tunnel core reads. -/
structure Config where
  initialPublicPort : Nat
  region : String
deriving Repr, DecidableEq

/-- JavaScript truthiness of an optional numeric request field: `!v` holds
when the field is absent or equal to `0`. -/
def jsFalsyNat : Option Nat → Bool
  | none => true
  | some n => n == 0

/-- JavaScript truthiness of an optional string request field: `!v` holds
when the field is absent or the empty string. -/
def jsFalsyStr : Option String → Bool
  | none => true
  | some s => s == ""

/-- Lookup in an insertion-ordered association list (a JS object / a table
keyed by primary key). -/
def lookupAssoc {α : Type} : List (String × α) → String → Option α
  | [], _ => none
  | (k', v) :: rest, k => if k' = k then some v else lookupAssoc rest k

/-- Key membership in an association list. -/
def containsKey {α : Type} (l : List (String × α)) (k : String) : Bool :=
  (lookupAssoc l k).isSome

/-- `obj[k] = v` on a JS object: replace the existing binding in place, or
append a new one. -/
def setAssoc {α : Type} : List (String × α) → String → α → List (String × α)
  | [], k, v => [(k, v)]
  | (k', v') :: rest, k, v =>
    if k' = k then (k', v) :: rest else (k', v') :: setAssoc rest k v

/-- `delete obj[k]` on a JS object / `DELETE ... WHERE id = k` on a table. -/
def removeAssoc {α : Type} : List (String × α) → String → List (String × α)
  | [], _ => []
  | (k', v) :: rest, k =>
    if k' = k then removeAssoc rest k else (k', v) :: removeAssoc rest k

/-- The value stored in the in-memory `tunnels` object for one tunnel.
`server` is `none` until `startForwarding` assigns the `net.Server`
(`tunnels[tunnelId].server = server`); once assigned, the boolean records
whether `listen(publicPort)` bound successfully. -/
structure Tunnel where
  localPort : Nat
  publicPort : Nat
  apiKey : String
  server : Option Bool
deriving Repr, DecidableEq

/-- A row of the persisted `tunnels` table.  `created_at` is omitted: no
handler ever reads it back. -/
structure DbRow where
  localPort : Nat
  publicPort : Nat
  apiKey : String
deriving Repr, DecidableEq

/-- Observable server state: the in-memory `tunnels` object, the persisted
`tunnels` table, and the ids of issued API keys (`api_keys.id`). -/
structure ServerState where
  tunnels : List (String × Tunnel)
  dbTunnels : List (String × DbRow)
  dbApiKeys : List String
deriving Repr, DecidableEq

/-- The `validateApiKey` middleware (src/server.js lines 303-315): rejects
with 403 when the key is falsy or absent from the `api_keys` table. -/
def validApiKey (s : ServerState) (apiKey : Option String) : Bool :=
  match apiKey with
  | none => false
  | some k => !(k == "") && s.dbApiKeys.contains k

/-- Outcome of a `POST /register` request. -/
inductive RegOutcome where
  | forbidden
  | missingLocalPort
  | dbError
  | success (tunnelId : String) (publicAddress : String)
deriving Repr, DecidableEq

/-- HTTP status code of a register outcome. -/
def regStatus : RegOutcome → Nat
  | .forbidden => 403
  | .missingLocalPort => 400
  | .dbError => 500
  | .success _ _ => 200

/-- Public address reported for a tunnel (src/server.js line 350, 453):
a constant host with the tunnel id as path, no port. -/
def publicAddress (tunnelId : String) : String :=
  "https://kemofox.onrender.com/" ++ tunnelId

/-- `startForwarding` (src/server.js lines 361-384): creates the `net.Server`,
calls `server.listen(publicPort)` and stores the server object on the tunnel
record.  `bindOk` is whether the bind succeeds; the code installs no error
handler on the server and performs no rollback in either case. -/
def startForwarding (s : ServerState) (tunnelId : String) (bindOk : Bool) : ServerState :=
  { s with tunnels := s.tunnels.map (fun p =>
      if p.1 = tunnelId then (p.1, { p.2 with server := some bindOk }) else p) }

/-- The `POST /register` handler together with its middleware (src/server.js
lines 303-358): validate the key, reject a falsy `localPort` with 400, store
the tunnel in the in-memory object, run the `INSERT` (which fails on a
primary-key conflict or an injected failure `dbOk = false`), answer, and on
database success call `startForwarding`.  On database failure the handler
answers 500 but the in-memory entry written just before the `INSERT` is not
removed. -/
def register (cfg : Config) (s : ServerState) (apiKey : Option String)
    (localPort : Option Nat) (tunnelId : String) (dbOk bindOk : Bool) :
    RegOutcome × ServerState :=
  if !(validApiKey s apiKey) then (.forbidden, s)
  else if jsFalsyNat localPort then (.missingLocalPort, s)
  else
    let lp := localPort.getD 0
    let k := apiKey.getD ""
    let pp := cfg.initialPublicPort + s.tunnels.length
    let s1 := { s with tunnels := setAssoc s.tunnels tunnelId ⟨lp, pp, k, none⟩ }
    if dbOk && !(containsKey s.dbTunnels tunnelId) then
      let s2 := { s1 with dbTunnels := s1.dbTunnels ++ [(tunnelId, ⟨lp, pp, k⟩)] }
      (.success tunnelId (publicAddress tunnelId), startForwarding s2 tunnelId bindOk)
    else
      (.dbError, s1)

/-- Outcome of a `POST /stop` request.  `typeError` is the uncaught
`tunnel.server.close()` on a record whose `server` field was never assigned. -/
inductive StopOutcome where
  | forbidden
  | missingTunnelId
  | notFound
  | typeError
  | dbError
  | success
deriving Repr, DecidableEq

/-- HTTP status code of a stop outcome (`typeError` surfaces as the
framework's 500 for an exception thrown in a handler). -/
def stopStatus : StopOutcome → Nat
  | .forbidden => 403
  | .missingTunnelId => 400
  | .notFound => 404
  | .typeError => 500
  | .dbError => 500
  | .success => 200

/-- Result of a `POST /stop` request: the response, the new state, and
whether this request called `server.close()`. -/
structure StopResult where
  outcome : StopOutcome
  state : ServerState
  didClose : Bool
deriving Repr, DecidableEq

/-- The `POST /stop` handler together with its middleware (src/server.js
lines 303-315 and 387-416): validate the key, 400 on a falsy `tunnelId`, 404
when the id is not in the in-memory object, 403 when the stored `apiKey`
differs from the request's, and otherwise close the server, delete the
in-memory entry, then run the `DELETE` (500 when it fails, with the close and
the in-memory deletion already done). -/
def stop (s : ServerState) (apiKey : Option String) (tunnelId : Option String)
    (dbOk : Bool) : StopResult :=
  if !(validApiKey s apiKey) then ⟨.forbidden, s, false⟩
  else if jsFalsyStr tunnelId then ⟨.missingTunnelId, s, false⟩
  else
    let tid := tunnelId.getD ""
    match lookupAssoc s.tunnels tid with
    | none => ⟨.notFound, s, false⟩
    | some t =>
      if !(t.apiKey == apiKey.getD "") then ⟨.forbidden, s, false⟩
      else
        match t.server with
        | none => ⟨.typeError, s, false⟩
        | some _ =>
          let s1 : ServerState :=
            { s with
              tunnels := removeAssoc s.tunnels tid,
              dbTunnels := if dbOk then removeAssoc s.dbTunnels tid else s.dbTunnels }
          ⟨if dbOk then .success else .dbError, s1, true⟩

/-- Response of the `GET /:tunnelId` status handler. -/
structure StatusResp where
  tunnelId : String
  publicAddress : String
  localPort : Nat
  region : String
deriving Repr, DecidableEq

/-- The `GET /:tunnelId` status handler (src/server.js lines 443-458): look
the id up in the persisted `tunnels` table, 404 when absent, otherwise report
the stored `local_port`, the constant public address and the region. -/
def statusOf (cfg : Config) (s : ServerState) (tunnelId : String) : Option StatusResp :=
  match lookupAssoc s.dbTunnels tunnelId with
  | none => none
  | some row => some ⟨tunnelId, publicAddress tunnelId, row.localPort, cfg.region⟩

/-- One control-plane request, with its nondeterministic inputs (generated
uuid, database success, bind success) explicit. -/
inductive Op where
  | reg (apiKey : Option String) (localPort : Option Nat) (tunnelId : String)
      (dbOk bindOk : Bool)
  | stp (apiKey : Option String) (tunnelId : Option String) (dbOk : Bool)
deriving Repr, DecidableEq

/-- State transition of one request. -/
def execOp (cfg : Config) (s : ServerState) : Op → ServerState
  | .reg k lp tid dbOk bindOk => (register cfg s k lp tid dbOk bindOk).2
  | .stp k tid dbOk => (stop s k tid dbOk).state

/-- State after a sequence of requests. -/
def execTrace (cfg : Config) (s : ServerState) (ops : List Op) : ServerState :=
  ops.foldl (execOp cfg) s

/-- `op` is a stop request naming tunnel `tid`. -/
def namesStopOf (op : Op) (tid : String) : Bool :=
  match op with
  | .reg _ _ _ _ _ => false
  | .stp _ t _ => t == some tid

/-- Direction of one data event inside an established relay. -/
inductive RelayDir where
  | pubToLocal
  | localToPub
deriving Repr, DecidableEq

/-- Bytes written so far to each side of one relayed connection. -/
structure RelayState where
  toLocal : List Nat
  toPublic : List Nat
deriving Repr, DecidableEq

/-- The data handler installed by `socket.pipe(client)` and
`client.pipe(socket)` (src/server.js lines 366-367): each chunk read from one
side is written verbatim, in order, to the other side — no framing,
transformation or inspection. -/
def relayData (st : RelayState) (d : RelayDir) (chunk : List Nat) : RelayState :=
  match d with
  | .pubToLocal => { st with toLocal := st.toLocal ++ chunk }
  | .localToPub => { st with toPublic := st.toPublic ++ chunk }

/-- Run one relayed connection over a sequence of data events. -/
def runRelay (evs : List (RelayDir × List Nat)) : RelayState :=
  evs.foldl (fun st e => relayData st e.1 e.2) ⟨[], []⟩

/-- Concatenation, in order, of the chunks sent in direction `d`. -/
def sentIn (d : RelayDir) : List (RelayDir × List Nat) → List Nat
  | [] => []
  | e :: evs => if e.1 = d then e.2 ++ sentIn d evs else sentIn d evs

/-- What the per-connection handler of the tunnel's `net.Server` does
(src/server.js lines 364-377): `net.connect(localPort, 'localhost')`; on
success the connect callback pipes the two sockets together; on failure only
the `client` error handler runs, which logs — the inbound socket is not
destroyed and the listener is untouched. -/
structure ConnResult where
  pipesEstablished : Bool
  inboundDestroyed : Bool
  clientErrorLogged : Bool
  listenerClosed : Bool
deriving Repr, DecidableEq

/-- Per-connection behavior as a function of whether the outbound connection
to the local port succeeds. -/
def onInbound (connectOk : Bool) : ConnResult :=
  if connectOk then ⟨true, false, false, false⟩
  else ⟨false, false, true, false⟩

/-- A configuration and a starting state used to evaluate the handlers on
concrete inputs: one issued key `"k"`, no tunnels. -/
def cfg0 : Config := ⟨9000, "us"⟩

/-- Initial state with a single issued API key `"k"` and no tunnels. -/
def s0 : ServerState := ⟨[], [], ["k"]⟩

/-- The register / register / stop / register sequence that makes the
allocator reuse a port still held by an active tunnel. -/
def collisionTrace : List Op :=
  [ .reg (some "k") (some 8080) "A" true true,
    .reg (some "k") (some 9090) "B" true true,
    .stp (some "k") (some "A") true,
    .reg (some "k") (some 7070) "C" true true ]

/-- A state with one active tunnel `"T"` owned by key `"k"`, as produced by a
successful registration; used to evaluate the stop handler concretely. -/
def sT : ServerState :=
  ⟨[("T", ⟨8080, 9000, "k", some true⟩)], [("T", ⟨8080, 9000, "k"⟩)], ["k"]⟩

/-- The tunnel record held by `sT` for id `"T"`. -/
def tT : Tunnel := ⟨8080, 9000, "k", some true⟩

/-- Claim C1: the rollback the specification requires does not happen.  With
a valid key, the persistence write succeeding and the bind failing,
`register` still answers 200 success (there is no `BindError` answer at
all), and both the in-memory `tunnels` entry and the persisted row remain,
with no live listener (`server = some false`). -/
theorem C1_no_rollback_on_bind_failure :
    (register cfg0 s0 (some "k") (some 8080) "T" true false).1
        = RegOutcome.success "T" (publicAddress "T") ∧
    regStatus (register cfg0 s0 (some "k") (some 8080) "T" true false).1 = 200 ∧
    lookupAssoc (register cfg0 s0 (some "k") (some 8080) "T" true false).2.tunnels "T"
        = some ⟨8080, 9000, "k", some false⟩ ∧
    lookupAssoc (register cfg0 s0 (some "k") (some 8080) "T" true false).2.dbTunnels "T"
        = some ⟨8080, 9000, "k"⟩ := by
  decide

/-- Claim C2: the port allocator (`initialPublicPort + Object.keys(tunnels).length`)
reuses ports.  After registering A and B, stopping A, and registering C, the
two simultaneously active tunnels B and C both hold public port 9001. -/
theorem C2_public_port_collision :
    lookupAssoc (execTrace cfg0 s0 collisionTrace).tunnels "B"
        = some ⟨9090, 9001, "k", some true⟩ ∧
    lookupAssoc (execTrace cfg0 s0 collisionTrace).tunnels "C"
        = some ⟨7070, 9001, "k", some true⟩ ∧
    "B" ≠ "C" := by
  decide

/-- Claim C4: when the outbound connection to the local target fails, the
handler only logs the client error: the inbound socket is not destroyed
(contrary to the claim), and — as the claim also states — the listener is not
closed and no pipe is established. -/
theorem C4_inbound_left_open_on_connect_failure :
    (onInbound false).inboundDestroyed = false ∧
    (onInbound false).clientErrorLogged = true ∧
    (onInbound false).listenerClosed = false ∧
    (onInbound false).pipesEstablished = false := by
  decide

/-- Claim C5: when the persistence write fails, `register` answers 500 but
leaves the in-memory `tunnels` entry behind (with no listener started and
nothing persisted) — the claimed rollback of the Registry entry does not
happen. -/
theorem C5_registry_entry_left_on_db_failure :
    (register cfg0 s0 (some "k") (some 8080) "T" false true).1 = RegOutcome.dbError ∧
    regStatus (register cfg0 s0 (some "k") (some 8080) "T" false true).1 = 500 ∧
    lookupAssoc (register cfg0 s0 (some "k") (some 8080) "T" false true).2.tunnels "T"
        = some ⟨8080, 9000, "k", none⟩ ∧
    (register cfg0 s0 (some "k") (some 8080) "T" false true).2.dbTunnels = [] := by
  decide

theorem runRelay_aux (evs : List (RelayDir × List Nat)) (st : RelayState) :
    (evs.foldl (fun s e => relayData s e.1 e.2) st).toLocal
        = st.toLocal ++ sentIn .pubToLocal evs ∧
    (evs.foldl (fun s e => relayData s e.1 e.2) st).toPublic
        = st.toPublic ++ sentIn .localToPub evs := by
  induction evs generalizing st with
  | nil => simp [sentIn]
  | cons e evs ih =>
    obtain ⟨d, c⟩ := e
    cases d
    · simpa [relayData, sentIn, List.append_assoc]
        using ih ⟨st.toLocal ++ c, st.toPublic⟩
    · simpa [relayData, sentIn, List.append_assoc]
        using ih ⟨st.toLocal, st.toPublic ++ c⟩

/-- Claim C3: for every sequence of data events — including the empty one —
the bytes delivered to each side of a relayed connection are exactly the
concatenation, in order, of the chunks sent from the other side: the relay
applies no framing, transformation or inspection in either direction. -/
theorem C3_relay_bytes_unmodified (evs : List (RelayDir × List Nat)) :
    (runRelay evs).toLocal = sentIn .pubToLocal evs ∧
    (runRelay evs).toPublic = sentIn .localToPub evs := by
  simpa [runRelay] using runRelay_aux evs ⟨[], []⟩

theorem lookupAssoc_append_ne {α : Type} (l : List (String × α)) (k' k : String)
    (v : α) (h : k' ≠ k) :
    lookupAssoc (l ++ [(k', v)]) k = lookupAssoc l k := by
  induction l with
  | nil => simp [lookupAssoc, h]
  | cons p rest ih =>
    obtain ⟨k0, v0⟩ := p
    by_cases h0 : k0 = k <;> simp [lookupAssoc, h0, ih]

theorem lookupAssoc_append_fresh {α : Type} (l : List (String × α)) (k : String)
    (v : α) (h : lookupAssoc l k = none) :
    lookupAssoc (l ++ [(k, v)]) k = some v := by
  induction l with
  | nil => simp [lookupAssoc]
  | cons p rest ih =>
    obtain ⟨k0, v0⟩ := p
    by_cases h0 : k0 = k
    · simp [lookupAssoc, h0] at h
    · simp only [lookupAssoc, h0, if_false, List.cons_append] at h ⊢
      simp [lookupAssoc, h0]
      exact ih h

theorem lookupAssoc_removeAssoc_self {α : Type} (l : List (String × α)) (k : String) :
    lookupAssoc (removeAssoc l k) k = none := by
  induction l with
  | nil => rfl
  | cons p rest ih =>
    obtain ⟨k0, v0⟩ := p
    by_cases h0 : k0 = k <;> simp [removeAssoc, lookupAssoc, h0, ih]

theorem lookupAssoc_removeAssoc_ne {α : Type} (l : List (String × α)) (k' k : String)
    (h : k' ≠ k) :
    lookupAssoc (removeAssoc l k') k = lookupAssoc l k := by
  induction l with
  | nil => rfl
  | cons p rest ih =>
    obtain ⟨k0, v0⟩ := p
    by_cases h0 : k0 = k'
    · simp [removeAssoc, lookupAssoc, h0, h, ih]
    · by_cases h1 : k0 = k
      · subst h1
        simp [removeAssoc, lookupAssoc, h0, ih]
      · simp [removeAssoc, lookupAssoc, h0, h1, ih]

theorem containsKey_false_lookup {α : Type} (l : List (String × α)) (k : String)
    (h : containsKey l k = false) : lookupAssoc l k = none := by
  cases hl : lookupAssoc l k with
  | none => rfl
  | some v => rw [containsKey, hl] at h; simp at h

theorem register_success_db (cfg : Config) (s : ServerState) (k : String) (lp : Nat)
    (tid : String) (bindOk : Bool)
    (hk : validApiKey s (some k) = true) (hlp : lp ≠ 0)
    (hfresh : containsKey s.dbTunnels tid = false) :
    (register cfg s (some k) (some lp) tid true bindOk).1
        = RegOutcome.success tid (publicAddress tid) ∧
    (register cfg s (some k) (some lp) tid true bindOk).2.dbTunnels
        = s.dbTunnels ++ [(tid, ⟨lp, cfg.initialPublicPort + s.tunnels.length, k⟩)] := by
  have hfn : jsFalsyNat (some lp) = false := by simp [jsFalsyNat, hlp]
  simp [register, hk, hfn, hfresh, startForwarding]

theorem dbRow_stable_step (cfg : Config) (s : ServerState) (tid : String) (row : DbRow)
    (op : Op) (hrow : lookupAssoc s.dbTunnels tid = some row)
    (hop : namesStopOf op tid = false) :
    lookupAssoc (execOp cfg s op).dbTunnels tid = some row := by
  cases op with
  | reg k lp tid' dbOk bindOk =>
    by_cases hv : validApiKey s k
    · by_cases hf : jsFalsyNat lp
      · simp [execOp, register, hv, hf, hrow]
      · by_cases hd : (dbOk && !(containsKey s.dbTunnels tid')) = true
        · have hne : tid' ≠ tid := by
            intro he
            subst he
            rw [containsKey, hrow] at hd
            simp at hd
          simp [execOp, register, hv, hf, hd, startForwarding,
            lookupAssoc_append_ne _ _ _ _ hne, hrow]
        · simp [execOp, register, hv, hf, hd, hrow]
    · simp [execOp, register, hv, hrow]
  | stp k tidO dbOk =>
    by_cases hv : validApiKey s k
    · by_cases hf : jsFalsyStr tidO
      · simp [execOp, stop, hv, hf, hrow]
      · cases tidO with
        | none => simp [jsFalsyStr] at hf
        | some t =>
          have hne : t ≠ tid := by
            simpa [namesStopOf] using hop
          cases hl : lookupAssoc s.tunnels t with
          | none => simp [execOp, stop, hv, hf, hl, hrow]
          | some tn =>
            by_cases hkm : (tn.apiKey == (k.getD "")) = true
            · cases hs : tn.server with
              | none => simp [execOp, stop, hv, hf, hl, hkm, hs, hrow]
              | some b =>
                by_cases hdb : dbOk
                · simp [execOp, stop, hv, hf, hl, hkm, hs, hdb,
                    lookupAssoc_removeAssoc_ne _ _ _ hne, hrow]
                · simp [execOp, stop, hv, hf, hl, hkm, hs, hdb, hrow]
            · simp [execOp, stop, hv, hf, hl, hkm, hrow]
    · simp [execOp, stop, hv, hrow]

theorem dbRow_stable_trace (cfg : Config) (ops : List Op) (s : ServerState)
    (tid : String) (row : DbRow) (hrow : lookupAssoc s.dbTunnels tid = some row)
    (hops : ∀ op ∈ ops, namesStopOf op tid = false) :
    lookupAssoc (execTrace cfg s ops).dbTunnels tid = some row := by
  induction ops generalizing s with
  | nil => simpa [execTrace] using hrow
  | cons op ops ih =>
    have h1 := dbRow_stable_step cfg s tid row op hrow (hops op (by simp))
    have h2 : ∀ o ∈ ops, namesStopOf o tid = false := fun o ho => hops o (by simp [ho])
    simpa [execTrace] using ih (execOp cfg s op) h1 h2

/-- Claim C6: after a successful registration, the status lookup reports the
registered `localPort` and the tunnel's public address, and both the status
response and the stored `publicPort` are unchanged by every later request
trace that contains no stop request naming this tunnel. -/
theorem C6_status_stable_until_stop (cfg : Config) (s : ServerState) (k : String)
    (lp : Nat) (tid : String) (bindOk : Bool)
    (hk : validApiKey s (some k) = true) (hlp : lp ≠ 0)
    (hfresh : containsKey s.dbTunnels tid = false) :
    (register cfg s (some k) (some lp) tid true bindOk).1
        = RegOutcome.success tid (publicAddress tid) ∧
    statusOf cfg (register cfg s (some k) (some lp) tid true bindOk).2 tid
        = some ⟨tid, publicAddress tid, lp, cfg.region⟩ ∧
    ∀ ops : List Op, (∀ op ∈ ops, namesStopOf op tid = false) →
      statusOf cfg
          (execTrace cfg (register cfg s (some k) (some lp) tid true bindOk).2 ops) tid
          = some ⟨tid, publicAddress tid, lp, cfg.region⟩ ∧
      lookupAssoc
          (execTrace cfg (register cfg s (some k) (some lp) tid true bindOk).2 ops).dbTunnels
          tid
          = some ⟨lp, cfg.initialPublicPort + s.tunnels.length, k⟩ := by
  obtain ⟨hout, hdb⟩ := register_success_db cfg s k lp tid bindOk hk hlp hfresh
  have hnone : lookupAssoc s.dbTunnels tid = none := containsKey_false_lookup _ _ hfresh
  have hrow : lookupAssoc (register cfg s (some k) (some lp) tid true bindOk).2.dbTunnels tid
      = some ⟨lp, cfg.initialPublicPort + s.tunnels.length, k⟩ := by
    rw [hdb]
    exact lookupAssoc_append_fresh _ _ _ hnone
  refine ⟨hout, by simp [statusOf, hrow], ?_⟩
  intro ops hops
  have h := dbRow_stable_trace cfg ops _ tid _ hrow hops
  exact ⟨by simp [statusOf, h], h⟩

/-- Witness for C6 at concrete inputs: register on the one-key state, then an
unrelated register and an unrelated stop; the status of `"T"` still reports
local port 8080 and the constant public address. -/
theorem C6_witness :
    statusOf cfg0
        (execTrace cfg0 (register cfg0 s0 (some "k") (some 8080) "T" true true).2
          [Op.reg (some "k") (some 9090) "U" true true, Op.stp (some "k") (some "U") true])
        "T"
      = some ⟨"T", publicAddress "T", 8080, "us"⟩ :=
  ((C6_status_stable_until_stop cfg0 s0 "k" 8080 "T" true (by decide) (by decide)
      (by decide)).2.2
    [Op.reg (some "k") (some 9090) "U" true true, Op.stp (some "k") (some "U") true]
    (by decide)).1

/-- Claim C7: after a stop that succeeded, a second stop on the same id with
any valid key returns `NotFound`, changes nothing, reports no crash, and does
not call `close` on the listening resource again. -/
theorem C7_second_stop_not_found (s : ServerState) (k1 k2 tid : String) (t : Tunnel)
    (b : Bool) (db2 : Bool)
    (hk1 : validApiKey s (some k1) = true)
    (hk2 : validApiKey s (some k2) = true)
    (htid : tid ≠ "")
    (ht : lookupAssoc s.tunnels tid = some t)
    (hown : t.apiKey = k1)
    (hsrv : t.server = some b) :
    (stop s (some k1) (some tid) true).outcome = StopOutcome.success ∧
    (stop s (some k1) (some tid) true).didClose = true ∧
    stop (stop s (some k1) (some tid) true).state (some k2) (some tid) db2
        = ⟨StopOutcome.notFound, (stop s (some k1) (some tid) true).state, false⟩ := by
  have hf : jsFalsyStr (some tid) = false := by simp [jsFalsyStr, htid]
  have h1 : stop s (some k1) (some tid) true
      = ⟨.success, ⟨removeAssoc s.tunnels tid, removeAssoc s.dbTunnels tid, s.dbApiKeys⟩,
          true⟩ := by
    simp [stop, hk1, hf, ht, hown, hsrv]
  rw [h1]
  have hk2x : validApiKey
      ⟨removeAssoc s.tunnels tid, removeAssoc s.dbTunnels tid, s.dbApiKeys⟩ (some k2)
      = true := by
    simpa [validApiKey] using hk2
  refine ⟨rfl, rfl, ?_⟩
  simp [stop, hk2x, hf, lookupAssoc_removeAssoc_self]

/-- Witness for C7 at concrete inputs: in the one-tunnel state `sT`, stopping
`"T"` succeeds and a second stop returns `NotFound` without closing again. -/
theorem C7_witness :
    (stop sT (some "k") (some "T") true).outcome = StopOutcome.success ∧
    (stop sT (some "k") (some "T") true).didClose = true ∧
    stop (stop sT (some "k") (some "T") true).state (some "k") (some "T") true
        = ⟨StopOutcome.notFound, (stop sT (some "k") (some "T") true).state, false⟩ :=
  C7_second_stop_not_found sT "k" "k" "T" tT true true (by decide) (by decide)
    (by decide) (by decide) (by decide) (by decide)

/-- Claim C8: for a stop request carrying a valid credential and a tunnel id:
an unknown id yields `NotFound` with the state unchanged; an existing tunnel
whose owner differs from the supplied key yields `Forbidden` with the state
unchanged; and on a matching owner the stop succeeds, closes the listener,
and removes both the in-memory entry and the persisted row. -/
theorem C8_stop_auth_and_teardown (s : ServerState) (k tid : String)
    (hk : validApiKey s (some k) = true) (htid : tid ≠ "") :
    (lookupAssoc s.tunnels tid = none →
      stop s (some k) (some tid) true = ⟨StopOutcome.notFound, s, false⟩) ∧
    (∀ t : Tunnel, lookupAssoc s.tunnels tid = some t → t.apiKey ≠ k →
      stop s (some k) (some tid) true = ⟨StopOutcome.forbidden, s, false⟩) ∧
    (∀ t : Tunnel, ∀ b : Bool, lookupAssoc s.tunnels tid = some t → t.apiKey = k →
      t.server = some b →
      (stop s (some k) (some tid) true).outcome = StopOutcome.success ∧
      (stop s (some k) (some tid) true).didClose = true ∧
      lookupAssoc (stop s (some k) (some tid) true).state.tunnels tid = none ∧
      lookupAssoc (stop s (some k) (some tid) true).state.dbTunnels tid = none) := by
  have hf : jsFalsyStr (some tid) = false := by simp [jsFalsyStr, htid]
  refine ⟨?_, ?_, ?_⟩
  · intro h
    simp [stop, hk, hf, h]
  · intro t h hne
    have hb : (t.apiKey == k) = false := by simpa using hne
    simp [stop, hk, hf, h, hb]
  · intro t b h he hs
    simp [stop, hk, hf, h, he, hs, lookupAssoc_removeAssoc_self]

/-- Witness for C8 at concrete inputs: in the one-tunnel state `sT` with the
valid key `"k"`, stopping the existing tunnel `"T"` succeeds, closes the
listener and removes both records (the matching-owner clause of C8). -/
theorem C8_witness :
    (stop sT (some "k") (some "T") true).outcome = StopOutcome.success ∧
    (stop sT (some "k") (some "T") true).didClose = true ∧
    lookupAssoc (stop sT (some "k") (some "T") true).state.tunnels "T" = none ∧
    lookupAssoc (stop sT (some "k") (some "T") true).state.dbTunnels "T" = none :=
  (C8_stop_auth_and_teardown sT "k" "T" (by decide) (by decide)).2.2 tT true
    (by decide) (by decide) (by decide)

/-- Claim C9: a register request with a valid key but no `localPort` field is
rejected with the 400 `Missing localPort` answer and the state is returned
unchanged: no in-memory entry, no persisted row, no listener. -/
theorem C9_absent_localPort_rejected (cfg : Config) (s : ServerState)
    (k : Option String) (tid : String) (dbOk bindOk : Bool)
    (hk : validApiKey s k = true) :
    register cfg s k none tid dbOk bindOk = (RegOutcome.missingLocalPort, s) ∧
    regStatus (register cfg s k none tid dbOk bindOk).1 = 400 := by
  have h : register cfg s k none tid dbOk bindOk = (RegOutcome.missingLocalPort, s) := by
    simp [register, hk, jsFalsyNat]
  exact ⟨h, by simp [h, regStatus]⟩

/-- Witness for C9 at concrete inputs. -/
theorem C9_witness :
    register cfg0 s0 (some "k") none "T" true true = (RegOutcome.missingLocalPort, s0) ∧
    regStatus (register cfg0 s0 (some "k") none "T" true true).1 = 400 :=
  C9_absent_localPort_rejected cfg0 s0 (some "k") "T" true true (by decide)

/-- Claim C10: a register request with a valid key and `localPort` present
but equal to `0` takes the same `!localPort` branch as an absent field: the
400 `Missing localPort` answer, with the state returned unchanged. -/
theorem C10_zero_localPort_rejected (cfg : Config) (s : ServerState)
    (k : Option String) (tid : String) (dbOk bindOk : Bool)
    (hk : validApiKey s k = true) :
    register cfg s k (some 0) tid dbOk bindOk = (RegOutcome.missingLocalPort, s) ∧
    regStatus (register cfg s k (some 0) tid dbOk bindOk).1 = 400 := by
  have h : register cfg s k (some 0) tid dbOk bindOk
      = (RegOutcome.missingLocalPort, s) := by
    simp [register, hk, jsFalsyNat]
  exact ⟨h, by simp [h, regStatus]⟩

/-- Witness for C10 at concrete inputs. -/
theorem C10_witness :
    register cfg0 s0 (some "k") (some 0) "T" true true
        = (RegOutcome.missingLocalPort, s0) ∧
    regStatus (register cfg0 s0 (some "k") (some 0) "T" true true).1 = 400 :=
  C10_zero_localPort_rejected cfg0 s0 (some "k") "T" true true (by decide)

end KemoFox
